import Mathlib

/-!
Shallow embedding of the DSP interface device of Source/Core/Core/HW/DSP.cpp:
the memory-mapped control/interrupt register, the Audio DMA engine, the ARAM
DMA engine and the byte-level ARAM accessors, together with proofs of the
specified properties.

Machine integers are modelled as `Nat` with explicit reductions modulo the
word size where the C code can overflow.  External collaborators (main
memory, the HSP peripheral, the audio sink, the event scheduler, the CPU
interrupt line) are modelled as explicit fields of the device-system state:
64-bit memory words as address-indexed functions, the audio sink and the
scheduler as logs of the calls the device issues.
-/

namespace DSPModel

/-- Pointwise update of an address-indexed store. -/
def fupd (f : Nat → Nat) (a v : Nat) : Nat → Nat :=
  fun x => if x = a then v else f x

/-- `Common::swap64`: byte-reverse a 64-bit value. -/
def swap64 (v : Nat) : Nat :=
  ((v >>> 0) &&& 0xFF) <<< 56 |||
  ((v >>> 8) &&& 0xFF) <<< 48 |||
  ((v >>> 16) &&& 0xFF) <<< 40 |||
  ((v >>> 24) &&& 0xFF) <<< 32 |||
  ((v >>> 32) &&& 0xFF) <<< 24 |||
  ((v >>> 40) &&& 0xFF) <<< 16 |||
  ((v >>> 48) &&& 0xFF) <<< 8 |||
  ((v >>> 56) &&& 0xFF)

/-- Subtraction of 8 on the 31-bit `count` bitfield of `UARAMCount`
(wraps modulo `2^31` exactly as the C bitfield does). -/
def u31sub8 (c : Nat) : Nat := (c + 2 ^ 31 - 8) % 2 ^ 31

/-- Set bit `i` of a 16-bit register value (C bitfield assignment `= 1`). -/
def setBit (h i : Nat) : Nat := h ||| 2 ^ i

/-- Clear bit `i` of a 16-bit register value (C bitfield assignment `= 0`). -/
def clrBit (h i : Nat) : Nat := h &&& (0xFFFF ^^^ 2 ^ i)

/-- Copy bit `i` of `src` into `dst` (C bitfield-to-bitfield assignment). -/
def copyBit (dst src i : Nat) : Nat :=
  if src.testBit i then setBit dst i else clrBit dst i

/-- Modelled from the spec: the `UDSPControl` bit layout and the
`INT_DSP`/`INT_ARAM`/`INT_AID` pending-bit values are declared in the
interface header `DSP.h`, which is not part of the provided sources.
Spec §3/§4.2: the control register carries reset (bit 0), DSP-assert
(bit 1), halt (bit 2), three pending bits with the matching enable mask
directly to their left (AID 3/4, ARAM 5/6, DSP 7/8 — DSP.cpp states that
each enable mask is the bit directly left of its pending bit and that the
`INT_*` values are the pending-bit positions), DMA-in-progress (bit 9),
init-code-select (bit 10), init-done (bit 11) and 4 padding bits (12-15).
`INT_AID` is the AID pending bit. -/
def INT_AID : Nat := 0x08

/-- Modelled from the spec: ARAM pending bit of the control register,
declared in the missing header `DSP.h` (see `INT_AID`). -/
def INT_ARAM : Nat := 0x20

/-- Modelled from the spec: DSP pending bit of the control register,
declared in the missing header `DSP.h` (see `INT_AID`). -/
def INT_DSP : Nat := 0x80

/-- Modelled from the spec: `DSP_CONTROL_MASK`, the caller-invisible subset
of control-register bits owned by the delegated DSP engine (reset,
DSP-assert, halt, init-code-select, init-done), declared in the missing
header `DSP.h`; spec §4.2 items 2 and 3 say exactly these five fields are
merged from the engine while masks/pending bits come from the write value. -/
def DSP_CONTROL_MASK : Nat := 0x0C07

/-- Modelled from the spec: standalone (GameCube) aux-RAM size, declared in
the missing header `DSP.h` (spec §4.5: private buffer of a fixed size,
16 MiB with mask `size - 1`). -/
def ARAM_SIZE : Nat := 0x1000000

/-- Modelled from the spec: standalone aux-RAM address mask (see
`ARAM_SIZE`). -/
def ARAM_MASK : Nat := 0xFFFFFF

/-- Modelled from the spec: aliased (Wii) extended-RAM size returned by the
external `Memory::GetExRamSizeReal` collaborator (spec §4.5: the aliased
mode indexes the console's 64 MiB extended main-memory region). -/
def EXRAM_SIZE : Nat := 0x4000000

/-- Modelled from the spec: aliased extended-RAM address mask returned by
the external `Memory::GetExRamMask` collaborator (see `EXRAM_SIZE`). -/
def EXRAM_MASK : Nat := 0x3FFFFFF

/-- Modelled from the spec: main-RAM address mask returned by the external
`Memory::GetRamMask` collaborator (spec §6: "address mask for current
console mode"; 32 MiB window). -/
def RAM_MASK : Nat := 0x1FFFFFF

/-- An event handed to the external scheduler (`CoreTiming::ScheduleEvent`). -/
inductive DSPEvent where
  /-- the `event_type_generate_dsp_interrupt` callback with its payload -/
  | genInterrupt : Nat → DSPEvent
  /-- the `event_type_complete_aram` callback -/
  | completeAram : DSPEvent
deriving DecidableEq, Repr

/-- A call to the external audio sink (`AudioCommon::SendAIBuffer`). -/
inductive AIEntry where
  /-- samples taken from main memory at `addr`, `samples` sample frames -/
  | buffer : (addr : Nat) → (samples : Nat) → AIEntry
  /-- one block of silence (`zero_samples`, 8 sample frames) -/
  | silence : AIEntry
deriving DecidableEq, Repr

/-- The device state of `DSPState::Data` together with its external
collaborators: 64-bit views of main memory and the HSP peripheral, a byte
view of the ARAM buffer and of main memory for the `ReadARAM`/`WriteARAM`
accessors, the CPU interrupt line for this device, the scheduler log and
the audio-sink log. -/
structure DSPSystem where
  /-- `aram.wii_mode` -/
  wii_mode : Bool
  /-- `aram.size` -/
  aram_size : Nat
  /-- `aram.mask` -/
  aram_mask : Nat
  /-- the ARAM buffer viewed as 64-bit words indexed by byte address
  (the granularity at which the ARAM DMA loop accesses it) -/
  aram64 : Nat → Nat
  /-- the ARAM buffer viewed bytewise (the granularity of
  `ReadARAM`/`WriteARAM`); no claim relates the two granularities -/
  aram8 : Nat → Nat
  /-- `audio_dma.current_source_address` -/
  current_source_address : Nat
  /-- `audio_dma.remaining_blocks_count` -/
  remaining_blocks_count : Nat
  /-- `audio_dma.SourceAddress` -/
  SourceAddress : Nat
  /-- `audio_dma.AudioDMAControl.Hex` (bit 15 = Enable, bits 0-14 = NumBlocks) -/
  AudioDMAControl : Nat
  /-- `aram_dma.MMAddr` -/
  MMAddr : Nat
  /-- `aram_dma.ARAddr` -/
  ARAddr : Nat
  /-- `aram_dma.Cnt.Hex` (bit 31 = dir, bits 0-30 = count) -/
  CntHex : Nat
  /-- `dsp_control.Hex` -/
  dsp_control : Nat
  /-- `aram_info.Hex` -/
  aram_info : Nat
  /-- `aram_mode` -/
  aram_mode : Nat
  /-- `aram_refresh` -/
  aram_refresh : Nat
  /-- external main memory viewed as 64-bit words indexed by byte address
  (`Memory::Read_U64` / `Memory::Write_U64`) -/
  mram64 : Nat → Nat
  /-- external main memory viewed bytewise (`Memory::Read_U8`) -/
  mram8 : Nat → Nat
  /-- the external HSP peripheral store (`HSP::Read` / `HSP::Write`) -/
  hsp : Nat → Nat
  /-- the CPU interrupt line for this device
  (`ProcessorInterface::SetInterrupt(INT_CAUSE_DSP, ·)`) -/
  line : Bool
  /-- log of scheduled events, as (delay, event) in scheduling order -/
  events : List (Nat × DSPEvent)
  /-- log of audio-sink deliveries in order -/
  aiLog : List AIEntry

/-- `UpdateInterrupts`: recompute the CPU interrupt line from the control
register, using the source's formula
`(DSP_CONTROL >> 1) & DSP_CONTROL & (INT_DSP | INT_ARAM | INT_AID) != 0`. -/
def UpdateInterrupts (sys : DSPSystem) : DSPSystem :=
  let ints_set :=
    decide (((sys.dsp_control >>> 1) &&& sys.dsp_control &&&
      (INT_DSP ||| INT_ARAM ||| INT_AID)) ≠ 0)
  { sys with line := ints_set }

/-- `GenerateDSPInterrupt`: OR the requested interrupt type, masked to the
three pending bits, into the control register, then recompute the line. -/
def GenerateDSPInterrupt (ty : Nat) (sys : DSPSystem) : DSPSystem :=
  UpdateInterrupts
    { sys with dsp_control :=
        sys.dsp_control ||| (ty &&& (INT_DSP ||| INT_ARAM ||| INT_AID)) }

/-- `CompleteARAM`: the scheduled ARAM-DMA completion callback; clear the
DMA-in-progress flag (bit 9) and raise the ARAM interrupt. -/
def CompleteARAM (sys : DSPSystem) : DSPSystem :=
  GenerateDSPInterrupt INT_ARAM { sys with dsp_control := clrBit sys.dsp_control 9 }

/-- `GenerateDSPInterruptFromDSPEmu`: the cross-thread request path; it only
hands `(cycles_into_future, interrupt type)` to the scheduler, mutating no
device register directly. -/
def GenerateDSPInterruptFromDSPEmu (ty cycles : Nat) (sys : DSPSystem) : DSPSystem :=
  { sys with events := sys.events ++ [(cycles, DSPEvent.genInterrupt ty)] }

/-- The `DSP_CONTROL` `ComplexWrite` handler.  `val` is the written 16-bit
value and `dspRet` the 16-bit result of the external
`DSPEmulator::DSP_WriteControlRegister(val)` call. -/
def writeControl (val dspRet : Nat) (sys : DSPSystem) : DSPSystem :=
  let v := val % 2 ^ 16
  let r := dspRet % 2 ^ 16
  let tmp := (v &&& (0xFFFF ^^^ DSP_CONTROL_MASK)) ||| (r &&& DSP_CONTROL_MASK)
  let sys := if v.testBit 0 then { sys with AudioDMAControl := 0 } else sys
  let h := sys.dsp_control
  let h := copyBit h tmp 0
  let h := copyBit h tmp 1
  let h := copyBit h tmp 2
  let h := copyBit h tmp 10
  let h := copyBit h tmp 11
  let h := copyBit h tmp 4
  let h := copyBit h tmp 6
  let h := copyBit h tmp 8
  let h := if tmp.testBit 3 then clrBit h 3 else h
  let h := if tmp.testBit 5 then clrBit h 5 else h
  let h := if tmp.testBit 7 then clrBit h 7 else h
  let h := (h &&& 0x0FFF) ||| (tmp &&& 0xF000)
  UpdateInterrupts { sys with dsp_control := h }

/-- The `AUDIO_DMA_CONTROL_LEN` `ComplexWrite` handler: store the written
value; on a 0-to-1 edge of the Enable bit (bit 15) snapshot the source
address and block count, deliver `NumBlocks * 8` sample frames to the
audio sink and schedule the AID interrupt 200 cycles in the future. -/
def writeAudioDMAControlLen (val : Nat) (sys : DSPSystem) : DSPSystem :=
  let v := val % 2 ^ 16
  let already_enabled := sys.AudioDMAControl.testBit 15
  let sys := { sys with AudioDMAControl := v }
  if !already_enabled && sys.AudioDMAControl.testBit 15 then
    let numBlocks := sys.AudioDMAControl &&& 0x7FFF
    { sys with
      current_source_address := sys.SourceAddress
      remaining_blocks_count := numBlocks
      aiLog := sys.aiLog ++ [AIEntry.buffer sys.SourceAddress (numBlocks * 8)]
      events := sys.events ++ [(200, DSPEvent.genInterrupt INT_AID)] }
  else
    sys

/-- The `AUDIO_DMA_BLOCKS_LEFT` `ComplexRead` handler: the zero-based
remaining-block count. -/
def readBlocksLeft (sys : DSPSystem) : Nat :=
  if sys.remaining_blocks_count > 0 then sys.remaining_blocks_count - 1 else 0

/-- `UpdateAudioDMA`: the periodic 4 kHz audio tick.  While enabled it
consumes one 32-byte block; on exhaustion it reloads the cursor and the
counter from the base registers, delivers the reloaded buffer to the sink
if nonempty and raises the AID interrupt; while idle it emits silence. -/
def UpdateAudioDMA (sys : DSPSystem) : DSPSystem :=
  if sys.AudioDMAControl.testBit 15 then
    let s1 :=
      if sys.remaining_blocks_count ≠ 0 then
        { sys with
          remaining_blocks_count := sys.remaining_blocks_count - 1
          current_source_address := (sys.current_source_address + 32) % 2 ^ 32 }
      else
        sys
    if s1.remaining_blocks_count = 0 then
      let numBlocks := s1.AudioDMAControl &&& 0x7FFF
      let s2 := { s1 with
        current_source_address := s1.SourceAddress
        remaining_blocks_count := numBlocks }
      let s3 :=
        if s2.remaining_blocks_count ≠ 0 then
          { s2 with aiLog := s2.aiLog ++ [AIEntry.buffer s2.SourceAddress (numBlocks * 8)] }
        else
          s2
      GenerateDSPInterrupt INT_AID s3
    else
      s1
  else
    { sys with aiLog := sys.aiLog ++ [AIEntry.silence] }

/-- The mutable state of the ARAM DMA transfer loop: the two running
addresses, the running count, the three stores the chunks touch, and the
number of chunk iterations executed so far. -/
structure AramXfer where
  mmaddr : Nat
  araddr : Nat
  count : Nat
  aram64 : Nat → Nat
  mram64 : Nat → Nat
  hsp : Nat → Nat
  iters : Nat

/-- Advance of the loop counters shared by every chunk body: both addresses
move up by 8 (u32), the count goes down by 8 (u31). -/
def chunkAdvance (st : AramXfer) : AramXfer :=
  { st with
    mmaddr := (st.mmaddr + 8) % 2 ^ 32
    araddr := (st.araddr + 8) % 2 ^ 32
    count := u31sub8 st.count
    iters := st.iters + 1 }

/-- One ARAM-to-MRAM chunk of the in-bounds transfer loop: the source's
three-way branch on the low nibble of `aram_info` (tags 3, 4, other),
each branch doing `Memory::Write_U64_Swap` of the buffer word. -/
def chunkA2Mbuf (mask tag : Nat) (st : AramXfer) : AramXfer :=
  let m :=
    if tag = 3 then
      fupd st.mram64 st.mmaddr (swap64 (st.aram64 (st.araddr &&& mask)))
    else if tag = 4 then
      fupd st.mram64 st.mmaddr (swap64 (st.aram64 (st.araddr &&& mask)))
    else
      fupd st.mram64 st.mmaddr (swap64 (st.aram64 (st.araddr &&& mask)))
  chunkAdvance { st with mram64 := m }

/-- One MRAM-to-ARAM chunk of the in-bounds transfer loop: the source's
three-way branch on the low nibble of `aram_info`; tag 4 additionally
mirrors the chunk to `araddr + 0x400000` when `araddr < 0x400000`. -/
def chunkM2Abuf (mask tag : Nat) (st : AramXfer) : AramXfer :=
  let v := swap64 (st.mram64 st.mmaddr)
  let a :=
    if tag = 3 then
      fupd st.aram64 (st.araddr &&& mask) v
    else if tag = 4 then
      let a0 :=
        if st.araddr < 0x400000 then
          fupd st.aram64 ((st.araddr + 0x400000) &&& mask) v
        else
          st.aram64
      fupd a0 (st.araddr &&& mask) v
    else
      fupd st.aram64 (st.araddr &&& mask) v
  chunkAdvance { st with aram64 := a }

/-- One ARAM-to-MRAM chunk of the out-of-bounds (HSP peripheral) loop:
`Memory::Write_U64(HSP::Read(ARAddr), MMAddr)`. -/
def chunkA2Mhsp (st : AramXfer) : AramXfer :=
  chunkAdvance { st with mram64 := fupd st.mram64 st.mmaddr (st.hsp st.araddr) }

/-- One MRAM-to-ARAM chunk of the out-of-bounds (HSP peripheral) loop:
`HSP::Write(ARAddr, Memory::Read_U64(MMAddr))`. -/
def chunkM2Ahsp (st : AramXfer) : AramXfer :=
  chunkAdvance { st with hsp := fupd st.hsp st.araddr (st.mram64 st.mmaddr) }

/-- The `while (count) { chunk }` transfer loop, with explicit fuel.  The C
loop terminates exactly when the count reaches 0; every caller passes fuel
`count`, which suffices because each chunk subtracts 8 from a count that is
a multiple of 8 (a count that is not a multiple of 8 would make the C loop
run forever, and here exhausts the fuel instead). -/
def aramLoop (chunk : AramXfer → AramXfer) : Nat → AramXfer → AramXfer
  | 0, st => st
  | fuel + 1, st => if st.count = 0 then st else aramLoop chunk fuel (chunk st)

/-- The body of `Do_ARAM_DMA`, parametrized by the two in-bounds chunk
bodies (one per direction) so the collapsed-branch variant demanded by the
refinement claim reuses the surrounding control flow verbatim.  Sets the
DMA-in-progress flag, schedules the completion callback at
`count / 32 * 246` cycles, masks both addresses to the 64 MiB mirror
window, then runs the direction- and bounds-selected transfer loop
synchronously.  Also returns the number of chunk iterations executed. -/
def aramDmaAux (cM2A cA2M : AramXfer → AramXfer) (sys : DSPSystem) : DSPSystem × Nat :=
  let sysA := { sys with
    dsp_control := setBit sys.dsp_control 9
    events := sys.events ++ [(((sys.CntHex % 2 ^ 31) / 32) * 246, DSPEvent.completeAram)] }
  let count := sysA.CntHex % 2 ^ 31
  let dir := sysA.CntHex.testBit 31
  let ar := sysA.ARAddr &&& 0x3FFFFFF
  let mm := sysA.MMAddr &&& 0x3FFFFFF
  let x0 : AramXfer := ⟨mm, ar, count, sysA.aram64, sysA.mram64, sysA.hsp, 0⟩
  let xf :=
    if dir then
      if ar < sysA.aram_size then aramLoop cA2M count x0
      else if !sysA.wii_mode then aramLoop chunkA2Mhsp count x0
      else x0
    else
      if ar < sysA.aram_size then aramLoop cM2A count x0
      else if !sysA.wii_mode then aramLoop chunkM2Ahsp count x0
      else x0
  ({ sysA with
      MMAddr := xf.mmaddr
      ARAddr := xf.araddr
      CntHex := (if dir then 2 ^ 31 else 0) + xf.count
      aram64 := xf.aram64
      mram64 := xf.mram64
      hsp := xf.hsp }, xf.iters)

/-- `Do_ARAM_DMA` together with the number of chunk iterations executed. -/
def Do_ARAM_DMA_core (sys : DSPSystem) : DSPSystem × Nat :=
  aramDmaAux (chunkM2Abuf sys.aram_mask (sys.aram_info &&& 0xF))
    (chunkA2Mbuf sys.aram_mask (sys.aram_info &&& 0xF)) sys

/-- `Do_ARAM_DMA`: the synchronous ARAM DMA transfer. -/
def Do_ARAM_DMA (sys : DSPSystem) : DSPSystem :=
  (Do_ARAM_DMA_core sys).1

/-- The MRAM-to-ARAM chunk with the descriptor-tag branch collapsed to the
single default path, as the refinement claim proposes. -/
def chunkM2AbufSingle (mask : Nat) (st : AramXfer) : AramXfer :=
  let v := swap64 (st.mram64 st.mmaddr)
  chunkAdvance { st with aram64 := fupd st.aram64 (st.araddr &&& mask) v }

/-- The ARAM-to-MRAM chunk with the descriptor-tag branch collapsed to the
single default path, as the refinement claim proposes. -/
def chunkA2MbufSingle (mask : Nat) (st : AramXfer) : AramXfer :=
  chunkAdvance
    { st with mram64 := fupd st.mram64 st.mmaddr (swap64 (st.aram64 (st.araddr &&& mask))) }

/-- `Do_ARAM_DMA` with the three-way descriptor-tag branch replaced by the
single default path in both directions (the transformation whose
equivalence the refinement claim asserts), plus the iteration count. -/
def Do_ARAM_DMA_single_core (sys : DSPSystem) : DSPSystem × Nat :=
  aramDmaAux (chunkM2AbufSingle sys.aram_mask) (chunkA2MbufSingle sys.aram_mask) sys

/-- The collapsed-branch `Do_ARAM_DMA` variant. -/
def Do_ARAM_DMA_single (sys : DSPSystem) : DSPSystem :=
  (Do_ARAM_DMA_single_core sys).1

/-- The `AR_DMA_CNT_L` `ComplexWrite` handler (the DMA trigger): store the
written value into the low half of the count register through the 32-byte
alignment mask, then run `Do_ARAM_DMA`; paired with the iteration count. -/
def writeARDMACntL_core (val : Nat) (sys : DSPSystem) : DSPSystem × Nat :=
  Do_ARAM_DMA_core
    { sys with CntHex := (sys.CntHex &&& 0xFFFF0000) ||| ((val % 2 ^ 16) &&& 0xFFE0) }

/-- The `AR_DMA_CNT_L` `ComplexWrite` handler (the DMA trigger). -/
def writeARDMACntL (val : Nat) (sys : DSPSystem) : DSPSystem :=
  (writeARDMACntL_core val sys).1

/-- `ReadARAM`: byte read of aux RAM.  In Wii (aliased) mode address bit 28
selects between the aliased buffer and ordinary main memory; in standalone
mode every address indexes the private buffer through its mask. -/
def ReadARAM (sys : DSPSystem) (address : Nat) : Nat :=
  if sys.wii_mode then
    if address &&& 0x10000000 ≠ 0 then
      sys.aram8 (address &&& sys.aram_mask)
    else
      sys.mram8 (address &&& RAM_MASK)
  else
    sys.aram8 (address &&& sys.aram_mask)

/-- `WriteARAM`: byte write of aux RAM; always indexes the buffer through
its mask, in both modes. -/
def WriteARAM (value address : Nat) (sys : DSPSystem) : DSPSystem :=
  { sys with aram8 := fupd sys.aram8 (address &&& sys.aram_mask) (value % 2 ^ 8) }

/-- `Reinit`: select mode, size, mask and buffer per console revision, zero
the DMA blocks, zero the control register and preset the halt bit, zero the
descriptor and set the mode-status and refresh registers to their
power-on values. -/
def Reinit (wii : Bool) (sys : DSPSystem) : DSPSystem :=
  { sys with
    wii_mode := wii
    aram_size := if wii then EXRAM_SIZE else ARAM_SIZE
    aram_mask := if wii then EXRAM_MASK else ARAM_MASK
    current_source_address := 0
    remaining_blocks_count := 0
    SourceAddress := 0
    AudioDMAControl := 0
    MMAddr := 0
    ARAddr := 0
    CntHex := 0
    dsp_control := setBit 0 2
    aram_info := 0
    aram_mode := 1
    aram_refresh := 156 }

/-- Spec-side predicate (written from the spec's words, for comparison with
the code's formula): at least one of the three interrupt sources AID
(pending bit 3, enable bit 4), ARAM (5, 6), DSP (7, 8) has both its
enable-mask bit and its pending bit set. -/
def enabledAndPending (h : Nat) : Prop :=
  (h.testBit 4 = true ∧ h.testBit 3 = true) ∨
  (h.testBit 6 = true ∧ h.testBit 5 = true) ∨
  (h.testBit 8 = true ∧ h.testBit 7 = true)

/-- The CPU interrupt line of the system agrees with the spec-side
enable-and-pending predicate on the control register. -/
def lineMatchesSpec (sys : DSPSystem) : Prop :=
  sys.line = true ↔ enabledAndPending sys.dsp_control

/-- The audio tick reloads exactly when the engine is enabled and at most
one block remains (the counter reaches zero during the tick). -/
def audioTickReloads (sys : DSPSystem) : Prop :=
  sys.AudioDMAControl.testBit 15 = true ∧ sys.remaining_blocks_count ≤ 1

/-- A concrete device-system state used to instantiate universally
quantified theorems at explicit inputs. -/
def exSys : DSPSystem :=
  { wii_mode := false
    aram_size := ARAM_SIZE
    aram_mask := ARAM_MASK
    aram64 := fun _ => 0
    aram8 := fun _ => 0
    current_source_address := 0
    remaining_blocks_count := 0
    SourceAddress := 0
    AudioDMAControl := 0
    MMAddr := 0
    ARAddr := 0
    CntHex := 0
    dsp_control := setBit 0 2
    aram_info := 0
    aram_mode := 1
    aram_refresh := 156
    mram64 := fun _ => 0
    mram8 := fun _ => 0
    hsp := fun _ => 0
    line := false
    events := []
    aiLog := [] }

/-- A chunk body advances both addresses by 8 (u32), subtracts 8 from the
count (u31) and counts one iteration, whatever it does to the stores. -/
def ChunkAdv (f : AramXfer → AramXfer) : Prop :=
  ∀ st : AramXfer,
    (f st).mmaddr = (st.mmaddr + 8) % 2 ^ 32 ∧
    (f st).araddr = (st.araddr + 8) % 2 ^ 32 ∧
    (f st).count = u31sub8 st.count ∧
    (f st).iters = st.iters + 1

/-- The aux-RAM size configurations `Reinit` can establish: aliased (Wii)
extended RAM or the standalone 16 MiB buffer. -/
def aramConfigOK (sys : DSPSystem) : Prop :=
  (sys.wii_mode = true ∧ sys.aram_size = EXRAM_SIZE) ∨
  (sys.wii_mode = false ∧ sys.aram_size = ARAM_SIZE)

/-- The code's one-shot interrupt formula
`(h >> 1) & h & (INT_DSP | INT_ARAM | INT_AID) != 0` is exactly the
spec's "some source has enable and pending both set". -/
theorem pendingFormula_iff (h : Nat) :
    (((h >>> 1) &&& h &&& (INT_DSP ||| INT_ARAM ||| INT_AID)) ≠ 0) ↔
      enabledAndPending h := by
  have hmask : (INT_DSP ||| INT_ARAM ||| INT_AID) = 168 := by decide
  rw [hmask]
  constructor
  · intro hne
    obtain ⟨i, hi⟩ := Nat.ne_zero_implies_bit_true hne
    rw [Nat.testBit_and, Nat.testBit_and, Nat.testBit_shiftRight] at hi
    simp only [Bool.and_eq_true] at hi
    obtain ⟨⟨ha, hb⟩, hc⟩ := hi
    have h8 : i < 8 := by
      by_contra hge
      push_neg at hge
      have h168 : (168 : Nat) < 2 ^ i :=
        lt_of_lt_of_le (by norm_num) (Nat.pow_le_pow_right (by norm_num) hge)
      rw [Nat.testBit_lt_two_pow h168] at hc
      exact Bool.false_ne_true hc
    interval_cases i <;>
      first
        | exact absurd hc (by decide)
        | exact Or.inl ⟨ha, hb⟩
        | exact Or.inr (Or.inl ⟨ha, hb⟩)
        | exact Or.inr (Or.inr ⟨ha, hb⟩)
  · intro hp
    have key : ∀ j, h.testBit (1 + j) = true → h.testBit j = true →
        Nat.testBit 168 j = true → ((h >>> 1) &&& h &&& 168) ≠ 0 := by
      intro j ha hb hc h0
      have hbit : ((h >>> 1) &&& h &&& 168).testBit j = true := by
        rw [Nat.testBit_and, Nat.testBit_and, Nat.testBit_shiftRight, ha, hb, hc]
        rfl
      rw [h0, Nat.zero_testBit] at hbit
      exact Bool.false_ne_true hbit
    rcases hp with ⟨h4, h3⟩ | ⟨h6, h5⟩ | ⟨h8b, h7⟩
    · exact key 3 h4 h3 (by decide)
    · exact key 5 h6 h5 (by decide)
    · exact key 7 h8b h7 (by decide)

/-- Every operation that ends by calling `UpdateInterrupts` leaves the
interrupt line agreeing with the spec predicate. -/
theorem line_matches_after_update (sys : DSPSystem) :
    lineMatchesSpec (UpdateInterrupts sys) := by
  constructor
  · intro hl
    exact (pendingFormula_iff sys.dsp_control).mp (of_decide_eq_true hl)
  · intro hp
    exact decide_eq_true ((pendingFormula_iff sys.dsp_control).mpr hp)

/-- C1: for every state, the CPU interrupt line for this device is asserted
iff at least one of the three interrupt sources (DSP, ARAM, AID) has both
its enable-mask bit and its pending bit set in the control register,
immediately after every mutating operation: every control-register write,
every ARAM-DMA completion callback, every DSP-engine-initiated interrupt,
and every audio-DMA tick that reloads. -/
theorem C1_interrupt_line_iff (sys : DSPSystem) (val dspRet ty : Nat) :
    lineMatchesSpec (writeControl val dspRet sys) ∧
    lineMatchesSpec (CompleteARAM sys) ∧
    lineMatchesSpec (GenerateDSPInterrupt ty sys) ∧
    (audioTickReloads sys → lineMatchesSpec (UpdateAudioDMA sys)) := by
  refine ⟨line_matches_after_update _, line_matches_after_update _,
    line_matches_after_update _, ?_⟩
  rintro ⟨hEn, hRem⟩
  rcases Nat.le_one_iff_eq_zero_or_eq_one.mp hRem with h0 | h1
  · simp only [UpdateAudioDMA, hEn, h0]
    norm_num [h0]
    exact line_matches_after_update _
  · simp only [UpdateAudioDMA, hEn, h1]
    norm_num
    exact line_matches_after_update _

/-- Witness for C1 at a concrete reloading state. -/
theorem C1_interrupt_line_iff_witness :
    audioTickReloads { exSys with AudioDMAControl := 0x8000 } ∧
    lineMatchesSpec (UpdateAudioDMA { exSys with AudioDMAControl := 0x8000 }) :=
  have h : audioTickReloads { exSys with AudioDMAControl := 0x8000 } := by
    constructor
    · decide
    · decide
  ⟨h, (C1_interrupt_line_iff { exSys with AudioDMAControl := 0x8000 } 0 0 0).2.2.2 h⟩

theorem testBit_setBit (h i j : Nat) :
    (setBit h i).testBit j = (h.testBit j || decide (i = j)) := by
  simp [setBit, Nat.testBit_or, Nat.testBit_two_pow]

theorem testBit_clrBit (h i j : Nat) (hj : j < 16) :
    (clrBit h i).testBit j = (h.testBit j && !decide (i = j)) := by
  have hd : decide (j < 16) = true := decide_eq_true hj
  rw [clrBit, Nat.testBit_and, Nat.testBit_xor,
    show (0xFFFF : Nat) = 2 ^ 16 - 1 from by norm_num,
    Nat.testBit_two_pow_sub_one, Nat.testBit_two_pow, hd, Bool.true_xor]

theorem testBit_copyBit (dst src i j : Nat) (hj : j < 16) :
    (copyBit dst src i).testBit j =
      (if i = j then src.testBit j else dst.testBit j) := by
  rcases eq_or_ne i j with rfl | hij
  · by_cases hs : src.testBit i <;>
      simp [copyBit, hs, testBit_setBit, testBit_clrBit _ _ _ hj]
  · by_cases hs : src.testBit i <;>
      simp [copyBit, hs, testBit_setBit, testBit_clrBit _ _ _ hj, hij]

theorem C2_control_write_bits (sys : DSPSystem) (val dspRet : Nat)
    (hv : val < 2 ^ 16) :
    (writeControl val dspRet sys).dsp_control.testBit 3
        = (sys.dsp_control.testBit 3 && !val.testBit 3) ∧
    (writeControl val dspRet sys).dsp_control.testBit 5
        = (sys.dsp_control.testBit 5 && !val.testBit 5) ∧
    (writeControl val dspRet sys).dsp_control.testBit 7
        = (sys.dsp_control.testBit 7 && !val.testBit 7) ∧
    (writeControl val dspRet sys).dsp_control.testBit 4 = val.testBit 4 ∧
    (writeControl val dspRet sys).dsp_control.testBit 6 = val.testBit 6 ∧
    (writeControl val dspRet sys).dsp_control.testBit 8 = val.testBit 8 := by
  have hv16 : val % 2 ^ 16 = val := Nat.mod_eq_of_lt hv
  have h4095 : ∀ j, j < 12 → Nat.testBit 4095 j = true := by decide
  have h65535 : ∀ j, j < 16 → Nat.testBit 65535 j = true := by decide
  have h61440 : ∀ j, j < 12 → Nat.testBit 61440 j = false := by decide
  have h3079 : ∀ j, j < 10 → 2 < j → Nat.testBit 3079 j = false := by decide
  unfold writeControl UpdateInterrupts
  simp only [hv16]
  refine ⟨?_, ?_, ?_, ?_, ?_, ?_⟩ <;>
    simp +decide [testBit_copyBit, testBit_setBit, testBit_clrBit,
      Nat.testBit_or, Nat.testBit_and, Nat.testBit_xor, DSP_CONTROL_MASK,
      h4095, h65535, h61440, h3079, Bool.and_comm,
      apply_ite (fun n => Nat.testBit n 3), apply_ite (fun n => Nat.testBit n 4),
      apply_ite (fun n => Nat.testBit n 5), apply_ite (fun n => Nat.testBit n 6),
      apply_ite (fun n => Nat.testBit n 7), apply_ite (fun n => Nat.testBit n 8),
      apply_ite DSPSystem.dsp_control]

/-- Witness for C2 at a concrete write value. -/
theorem C2_control_write_bits_witness :
    ((0xA8 : Nat) < 2 ^ 16) ∧
    ((writeControl 0xA8 0 exSys).dsp_control.testBit 3
      = (exSys.dsp_control.testBit 3 && !(0xA8 : Nat).testBit 3)) :=
  ⟨by decide, (C2_control_write_bits exSys 0xA8 0 (by decide)).1⟩

/-- Bits of the constant `INT_DSP ||| INT_ARAM ||| INT_AID` outside the
three pending positions are clear. -/
theorem testBit168_eq_false (j : Nat) (h3 : j ≠ 3) (h5 : j ≠ 5) (h7 : j ≠ 7) :
    Nat.testBit 168 j = false := by
  by_cases hj : j < 8
  · interval_cases j <;> first | decide | simp_all
  · push_neg at hj
    exact Nat.testBit_lt_two_pow
      (lt_of_lt_of_le (by norm_num) (Nat.pow_le_pow_right (by norm_num) hj))

/-- C10: `GenerateDSPInterrupt` masks its 64-bit argument to the three
pending bits before OR-ing it into the control register, so every
control-register bit other than the DSP/ARAM/AID pending bits (enable
masks, halt/reset/init fields, DMA-in-progress flag, padding) is unchanged,
the three pending bits are only ever OR-ed in, and the cross-thread request
path mutates no register at all. -/
theorem C10_generate_interrupt_frame (ty cycles : Nat) (sys : DSPSystem) :
    (∀ j, j ≠ 3 → j ≠ 5 → j ≠ 7 →
      (GenerateDSPInterrupt ty sys).dsp_control.testBit j
        = sys.dsp_control.testBit j) ∧
    ((GenerateDSPInterrupt ty sys).dsp_control.testBit 3
        = (sys.dsp_control.testBit 3 || ty.testBit 3)) ∧
    ((GenerateDSPInterrupt ty sys).dsp_control.testBit 5
        = (sys.dsp_control.testBit 5 || ty.testBit 5)) ∧
    ((GenerateDSPInterrupt ty sys).dsp_control.testBit 7
        = (sys.dsp_control.testBit 7 || ty.testBit 7)) ∧
    (GenerateDSPInterruptFromDSPEmu ty cycles sys).dsp_control
        = sys.dsp_control := by
  have hred : (GenerateDSPInterrupt ty sys).dsp_control
      = sys.dsp_control ||| (ty &&& (INT_DSP ||| INT_ARAM ||| INT_AID)) := rfl
  have hm : (INT_DSP ||| INT_ARAM ||| INT_AID) = 168 := by decide
  refine ⟨?_, ?_, ?_, ?_, rfl⟩
  · intro j hj3 hj5 hj7
    rw [hred, hm, Nat.testBit_or, Nat.testBit_and, testBit168_eq_false j hj3 hj5 hj7]
    simp
  · rw [hred, hm, Nat.testBit_or, Nat.testBit_and,
      show Nat.testBit 168 3 = true from by decide, Bool.and_true]
  · rw [hred, hm, Nat.testBit_or, Nat.testBit_and,
      show Nat.testBit 168 5 = true from by decide, Bool.and_true]
  · rw [hred, hm, Nat.testBit_or, Nat.testBit_and,
      show Nat.testBit 168 7 = true from by decide, Bool.and_true]

/-- Witness for C10 at a concrete bit index and interrupt argument. -/
theorem C10_generate_interrupt_frame_witness :
    ((4 : Nat) ≠ 3 ∧ (4 : Nat) ≠ 5 ∧ (4 : Nat) ≠ 7) ∧
    (GenerateDSPInterrupt 0xFFFF exSys).dsp_control.testBit 4
      = exSys.dsp_control.testBit 4 :=
  ⟨⟨by decide, by decide, by decide⟩,
    (C10_generate_interrupt_frame 0xFFFF 0 exSys).1 4
      (by decide) (by decide) (by decide)⟩

/-- C9 counterexample: after reinit the mode-status register reads 1 (the
controller-initialized flag) and the refresh register reads 156, not zero
as the claim states. -/
theorem C9_reinit_counterexample :
    (Reinit false exSys).aram_mode ≠ 0 ∧ (Reinit false exSys).aram_refresh ≠ 0 := by
  constructor <;> decide

/-- C9 (amended): after reinit every device register is zero — both DMA
state blocks and the aux-RAM descriptor — except that the control register
is exactly the halt-bit-only value, the mode-status register is 1
(controller initialized) and the refresh register is 156. -/
theorem C9_reinit_registers (wii : Bool) (sys : DSPSystem) :
    (Reinit wii sys).dsp_control = 2 ^ 2 ∧
    (Reinit wii sys).AudioDMAControl = 0 ∧
    (Reinit wii sys).SourceAddress = 0 ∧
    (Reinit wii sys).current_source_address = 0 ∧
    (Reinit wii sys).remaining_blocks_count = 0 ∧
    (Reinit wii sys).MMAddr = 0 ∧
    (Reinit wii sys).ARAddr = 0 ∧
    (Reinit wii sys).CntHex = 0 ∧
    (Reinit wii sys).aram_info = 0 ∧
    (Reinit wii sys).aram_mode = 1 ∧
    (Reinit wii sys).aram_refresh = 156 := by
  refine ⟨?_, rfl, rfl, rfl, rfl, rfl, rfl, rfl, rfl, rfl, rfl⟩
  rw [show (Reinit wii sys).dsp_control = setBit 0 2 from rfl]
  decide

/-- C5 counterexample: arming with Enable set and NumBlocks = 2 delivers
16 sample frames (two 32-byte blocks) to the audio sink at once, not the
single 32-byte block (8 frames) the claim states. -/
theorem C5_one_block_counterexample :
    (writeAudioDMAControlLen 0x8002 { exSys with SourceAddress := 0x2000 }).aiLog
      = [AIEntry.buffer 0x2000 16] ∧
    (writeAudioDMAControlLen 0x8002 { exSys with SourceAddress := 0x2000 }).aiLog
      ≠ [AIEntry.buffer 0x2000 8] := by
  constructor <;> decide

/-- C5 (amended): exactly on a 0-to-1 edge of the enable bit the engine
snapshots `SourceAddress` and `NumBlocks` into cursor and counter,
immediately delivers `NumBlocks` blocks worth of samples (`NumBlocks * 8`
sample frames, not one block) to the audio sink, and schedules the AID
interrupt 200 cycle-units in the future; a write with enable already set
only stores the register and performs no reload, delivery or scheduling. -/
theorem C5_audio_dma_arm (val : Nat) (sys : DSPSystem) :
    (sys.AudioDMAControl.testBit 15 = false → (val % 2 ^ 16).testBit 15 = true →
      (writeAudioDMAControlLen val sys).AudioDMAControl = val % 2 ^ 16 ∧
      (writeAudioDMAControlLen val sys).current_source_address = sys.SourceAddress ∧
      (writeAudioDMAControlLen val sys).remaining_blocks_count
        = ((val % 2 ^ 16) &&& 0x7FFF) ∧
      (writeAudioDMAControlLen val sys).aiLog
        = sys.aiLog ++
            [AIEntry.buffer sys.SourceAddress (((val % 2 ^ 16) &&& 0x7FFF) * 8)] ∧
      (writeAudioDMAControlLen val sys).events
        = sys.events ++ [(200, DSPEvent.genInterrupt INT_AID)]) ∧
    (sys.AudioDMAControl.testBit 15 = true →
      (writeAudioDMAControlLen val sys).AudioDMAControl = val % 2 ^ 16 ∧
      (writeAudioDMAControlLen val sys).current_source_address
        = sys.current_source_address ∧
      (writeAudioDMAControlLen val sys).remaining_blocks_count
        = sys.remaining_blocks_count ∧
      (writeAudioDMAControlLen val sys).aiLog = sys.aiLog ∧
      (writeAudioDMAControlLen val sys).events = sys.events) := by
  constructor
  · intro h0 h1
    have h1n : (val % 65536).testBit 15 = true := h1
    simp [writeAudioDMAControlLen, h0, h1n]
  · intro h1
    simp [writeAudioDMAControlLen, h1]

/-- Witness for C5 at a concrete arming write. -/
theorem C5_audio_dma_arm_witness :
    (exSys.AudioDMAControl.testBit 15 = false ∧
      ((0x8002 : Nat) % 2 ^ 16).testBit 15 = true) ∧
    (writeAudioDMAControlLen 0x8002 exSys).aiLog
      = exSys.aiLog ++
          [AIEntry.buffer exSys.SourceAddress
            ((((0x8002 : Nat) % 2 ^ 16) &&& 0x7FFF) * 8)] :=
  ⟨⟨by decide, by decide⟩,
    ((C5_audio_dma_arm 0x8002 exSys).1 (by decide) (by decide)).2.2.2.1⟩

/-- C6 counterexample: in the scenario (arm with source 0x1000 and
3 blocks) the read taken after the first tick returns 1, not 2 as the
claim's sequence states; 2 is what a read returns after arming, before any
tick. -/
theorem C6_scenario_counterexample :
    readBlocksLeft
        (UpdateAudioDMA
          (writeAudioDMAControlLen 0x8003 { exSys with SourceAddress := 0x1000 })) = 1 ∧
    readBlocksLeft
        (UpdateAudioDMA
          (writeAudioDMAControlLen 0x8003 { exSys with SourceAddress := 0x1000 })) ≠ 2 := by
  constructor <;> decide

/-- C6 (amended): a read of the blocks-remaining register returns
`max(remaining - 1, 0)`; in the concrete scenario (arm with source 0x1000,
3 blocks) the read after arming returns 2 and the reads after each of the
next two ticks return 1 then 0; the third tick reloads, fires the AID
interrupt (pending bit set), and a read then returns 2 again. -/
theorem C6_blocks_left (sys : DSPSystem) :
    ((readBlocksLeft sys : Int)
        = max ((sys.remaining_blocks_count : Int) - 1) 0) ∧
    readBlocksLeft
        (writeAudioDMAControlLen 0x8003 { exSys with SourceAddress := 0x1000 }) = 2 ∧
    readBlocksLeft
        (UpdateAudioDMA
          (writeAudioDMAControlLen 0x8003 { exSys with SourceAddress := 0x1000 })) = 1 ∧
    readBlocksLeft
        (UpdateAudioDMA (UpdateAudioDMA
          (writeAudioDMAControlLen 0x8003 { exSys with SourceAddress := 0x1000 }))) = 0 ∧
    (UpdateAudioDMA (UpdateAudioDMA (UpdateAudioDMA
          (writeAudioDMAControlLen 0x8003
            { exSys with SourceAddress := 0x1000 })))).dsp_control.testBit 3 = true ∧
    readBlocksLeft
        (UpdateAudioDMA (UpdateAudioDMA (UpdateAudioDMA
          (writeAudioDMAControlLen 0x8003
            { exSys with SourceAddress := 0x1000 })))) = 2 := by
  refine ⟨?_, by decide, by decide, by decide, by decide, by decide⟩
  unfold readBlocksLeft
  split <;> omega

/-- C7: triggering the ARAM DMA sets the DMA-in-progress flag (bit 9),
schedules exactly one completion callback at `count / 32 * 246` cycles, and
leaves the ARAM pending bit (bit 5) untouched at trigger time; the
completion callback is what clears the DMA-in-progress flag and raises the
ARAM pending bit (the bulk copy itself being part of the synchronous
trigger-time transition). -/
theorem C7_aram_dma_timing (sys : DSPSystem) :
    ((Do_ARAM_DMA sys).dsp_control.testBit 9 = true) ∧
    ((Do_ARAM_DMA sys).events
      = sys.events ++ [(((sys.CntHex % 2 ^ 31) / 32) * 246, DSPEvent.completeAram)]) ∧
    ((Do_ARAM_DMA sys).dsp_control.testBit 5 = sys.dsp_control.testBit 5) ∧
    ((CompleteARAM sys).dsp_control.testBit 9 = false) ∧
    ((CompleteARAM sys).dsp_control.testBit 5 = true) := by
  have htrig : (Do_ARAM_DMA sys).dsp_control = setBit sys.dsp_control 9 := rfl
  have hcomp : (CompleteARAM sys).dsp_control
      = (clrBit sys.dsp_control 9) |||
          (INT_ARAM &&& (INT_DSP ||| INT_ARAM ||| INT_AID)) := rfl
  have hc : (INT_ARAM &&& (INT_DSP ||| INT_ARAM ||| INT_AID)) = 32 := by decide
  refine ⟨?_, rfl, ?_, ?_, ?_⟩
  · rw [htrig, testBit_setBit]
    simp
  · rw [htrig, testBit_setBit]
    simp
  · rw [hcomp, hc, Nat.testBit_or, testBit_clrBit _ _ _ (by norm_num),
      show Nat.testBit 32 9 = false from by decide]
    simp
  · rw [hcomp, hc, Nat.testBit_or, show Nat.testBit 32 5 = true from by decide]
    simp

/-- A single-bit mask test is nonzero exactly when the bit is set. -/
theorem and_two_pow_ne_zero_iff (x i : Nat) :
    (x &&& 2 ^ i ≠ 0) ↔ x.testBit i = true := by
  constructor
  · intro h
    obtain ⟨j, hj⟩ := Nat.ne_zero_implies_bit_true h
    rw [Nat.testBit_and, Nat.testBit_two_pow] at hj
    simp only [Bool.and_eq_true] at hj
    obtain ⟨hx, hij⟩ := hj
    have hije : i = j := of_decide_eq_true hij
    subst hije
    exact hx
  · intro h hzero
    have hbit : (x &&& 2 ^ i).testBit i = true := by
      rw [Nat.testBit_and, Nat.testBit_two_pow, h]
      simp
    rw [hzero, Nat.zero_testBit] at hbit
    exact Bool.false_ne_true hbit

/-- C8 counterexample: in aliased (Wii) mode, a byte write at an address
with the high dispatch bit clear still lands in the aux-RAM buffer and
leaves main memory untouched, contradicting the claim that the write, like
the read, dispatches to ordinary main memory when the bit is clear. -/
theorem C8_write_dispatch_counterexample :
    (WriteARAM 5 0
        { exSys with
          wii_mode := true
          aram_size := EXRAM_SIZE
          aram_mask := EXRAM_MASK
          mram8 := fun _ => 9 }).mram8 0 = 9 ∧
    (WriteARAM 5 0
        { exSys with
          wii_mode := true
          aram_size := EXRAM_SIZE
          aram_mask := EXRAM_MASK
          mram8 := fun _ => 9 }).aram8 0 = 5 := by
  constructor <;> decide

/-- C8 (amended): the byte-level read dispatches as the claim states — in
aliased mode address bit 28 selects the aliased buffer when set and
ordinary main memory when clear, and in standalone mode every address
indexes the private buffer through its mask — but the byte-level write
always indexes the buffer through its mask in both modes (no dispatch),
leaving main memory unchanged. -/
theorem C8_aram_accessors (sys : DSPSystem) (address value : Nat) :
    (sys.wii_mode = true → address.testBit 28 = true →
      ReadARAM sys address = sys.aram8 (address &&& sys.aram_mask)) ∧
    (sys.wii_mode = true → address.testBit 28 = false →
      ReadARAM sys address = sys.mram8 (address &&& RAM_MASK)) ∧
    (sys.wii_mode = false →
      ReadARAM sys address = sys.aram8 (address &&& sys.aram_mask)) ∧
    ((WriteARAM value address sys).aram8
      = fupd sys.aram8 (address &&& sys.aram_mask) (value % 2 ^ 8)) ∧
    ((WriteARAM value address sys).mram8 = sys.mram8) := by
  have hpow : (0x10000000 : Nat) = 2 ^ 28 := by norm_num
  refine ⟨?_, ?_, ?_, rfl, rfl⟩
  · intro hw hb
    have hne : address &&& 0x10000000 ≠ 0 := by
      rw [hpow]
      exact (and_two_pow_ne_zero_iff address 28).mpr hb
    simp [ReadARAM, hw, hne]
  · intro hw hb
    have hne : ¬ address &&& 0x10000000 ≠ 0 := by
      rw [hpow]
      intro hne
      rw [(and_two_pow_ne_zero_iff address 28).mp hne] at hb
      exact absurd hb (by decide)
    simp [ReadARAM, hw, hne]
  · intro hw
    simp [ReadARAM, hw]

/-- Witness for C8 at concrete aliased-mode addresses. -/
theorem C8_aram_accessors_witness :
    (({ exSys with
        wii_mode := true
        aram_size := EXRAM_SIZE
        aram_mask := EXRAM_MASK } : DSPSystem).wii_mode = true ∧
      (0x10000000 : Nat).testBit 28 = true) ∧
    ReadARAM
        { exSys with
          wii_mode := true
          aram_size := EXRAM_SIZE
          aram_mask := EXRAM_MASK } 0x10000000
      = ({ exSys with
          wii_mode := true
          aram_size := EXRAM_SIZE
          aram_mask := EXRAM_MASK } : DSPSystem).aram8
          (0x10000000 &&&
            ({ exSys with
              wii_mode := true
              aram_size := EXRAM_SIZE
              aram_mask := EXRAM_MASK } : DSPSystem).aram_mask) :=
  ⟨⟨by decide, by decide⟩,
    (C8_aram_accessors
        { exSys with
          wii_mode := true
          aram_size := EXRAM_SIZE
          aram_mask := EXRAM_MASK } 0x10000000 0).1 (by decide) (by decide)⟩

/-- Every chunk body of the four transfer loops advances the counters the
same way. -/
theorem chunkAdv_all (mask tag : Nat) :
    ChunkAdv (chunkA2Mbuf mask tag) ∧ ChunkAdv (chunkM2Abuf mask tag) ∧
    ChunkAdv chunkA2Mhsp ∧ ChunkAdv chunkM2Ahsp :=
  ⟨fun _ => ⟨rfl, rfl, rfl, rfl⟩, fun _ => ⟨rfl, rfl, rfl, rfl⟩,
    fun _ => ⟨rfl, rfl, rfl, rfl⟩, fun _ => ⟨rfl, rfl, rfl, rfl⟩⟩

/-- The transfer loop, started on a count of `8 * k` with enough fuel and
non-overflowing addresses, runs exactly `k` chunks: the count ends at 0 and
both addresses advance by `8 * k`. -/
theorem aramLoop_adv (f : AramXfer → AramXfer) (hf : ChunkAdv f) :
    ∀ (k fuel : Nat) (st : AramXfer), st.count = 8 * k → 8 * k < 2 ^ 31 →
      k ≤ fuel → st.mmaddr + 8 * k < 2 ^ 32 → st.araddr + 8 * k < 2 ^ 32 →
      (aramLoop f fuel st).count = 0 ∧
      (aramLoop f fuel st).mmaddr = st.mmaddr + 8 * k ∧
      (aramLoop f fuel st).araddr = st.araddr + 8 * k ∧
      (aramLoop f fuel st).iters = st.iters + k := by
  intro k
  induction k with
  | zero =>
    intro fuel st hc _ _ _ _
    cases fuel with
    | zero => simp [aramLoop, hc]
    | succ n => simp [aramLoop, hc]
  | succ k ih =>
    intro fuel st hc hlt hfuel hmm har
    cases fuel with
    | zero => exact absurd hfuel (by omega)
    | succ n =>
      have hcne : ¬ st.count = 0 := by omega
      obtain ⟨hm, ha, hcount, hit⟩ := hf st
      have hcount8 : (f st).count = 8 * k := by
        rw [hcount, hc, u31sub8]
        omega
      have hmm8 : (f st).mmaddr = st.mmaddr + 8 := by
        rw [hm]
        omega
      have har8 : (f st).araddr = st.araddr + 8 := by
        rw [ha]
        omega
      obtain ⟨c1, c2, c3, c4⟩ :=
        ih n (f st) hcount8 (by omega) (by omega) (by rw [hmm8]; omega)
          (by rw [har8]; omega)
      rw [aramLoop, if_neg hcne]
      refine ⟨c1, ?_, ?_, ?_⟩
      · rw [c2, hmm8]
        omega
      · rw [c3, har8]
        omega
      · rw [c4, hit]
        omega

/-- `aramDmaAux` on a count of `8 * k`, in a configuration whose aux-RAM
size exceeds the 64 MiB mirror window on Wii, runs exactly `k` chunks and
leaves count 0 and both addresses at their masked start plus `8 * k`. -/
theorem aramDmaAux_counts (cM2A cA2M : AramXfer → AramXfer)
    (hM : ChunkAdv cM2A) (hA : ChunkAdv cA2M) (sys : DSPSystem) (k : Nat)
    (hk : sys.CntHex % 2 ^ 31 = 8 * k)
    (hsize : sys.wii_mode = true → 0x3FFFFFF < sys.aram_size) :
    (aramDmaAux cM2A cA2M sys).2 = k ∧
    (aramDmaAux cM2A cA2M sys).1.CntHex % 2 ^ 31 = 0 ∧
    (aramDmaAux cM2A cA2M sys).1.MMAddr = (sys.MMAddr &&& 0x3FFFFFF) + 8 * k ∧
    (aramDmaAux cM2A cA2M sys).1.ARAddr = (sys.ARAddr &&& 0x3FFFFFF) + 8 * k := by
  have hc31 : sys.CntHex % 2 ^ 31 < 2 ^ 31 := Nat.mod_lt _ (by norm_num)
  have h8k : 8 * k < 2 ^ 31 := by
    rw [← hk]
    exact hc31
  have hmmle : sys.MMAddr &&& 0x3FFFFFF ≤ 0x3FFFFFF := Nat.and_le_right
  have harle : sys.ARAddr &&& 0x3FFFFFF ≤ 0x3FFFFFF := Nat.and_le_right
  have key : ∀ f, ChunkAdv f →
      (aramLoop f (sys.CntHex % 2 ^ 31)
          ⟨sys.MMAddr &&& 0x3FFFFFF, sys.ARAddr &&& 0x3FFFFFF,
            sys.CntHex % 2 ^ 31, sys.aram64, sys.mram64, sys.hsp, 0⟩).count = 0 ∧
      (aramLoop f (sys.CntHex % 2 ^ 31)
          ⟨sys.MMAddr &&& 0x3FFFFFF, sys.ARAddr &&& 0x3FFFFFF,
            sys.CntHex % 2 ^ 31, sys.aram64, sys.mram64, sys.hsp, 0⟩).mmaddr
        = (sys.MMAddr &&& 0x3FFFFFF) + 8 * k ∧
      (aramLoop f (sys.CntHex % 2 ^ 31)
          ⟨sys.MMAddr &&& 0x3FFFFFF, sys.ARAddr &&& 0x3FFFFFF,
            sys.CntHex % 2 ^ 31, sys.aram64, sys.mram64, sys.hsp, 0⟩).araddr
        = (sys.ARAddr &&& 0x3FFFFFF) + 8 * k ∧
      (aramLoop f (sys.CntHex % 2 ^ 31)
          ⟨sys.MMAddr &&& 0x3FFFFFF, sys.ARAddr &&& 0x3FFFFFF,
            sys.CntHex % 2 ^ 31, sys.aram64, sys.mram64, sys.hsp, 0⟩).iters = k := by
    intro f hf
    obtain ⟨c1, c2, c3, c4⟩ :=
      aramLoop_adv f hf k (sys.CntHex % 2 ^ 31)
        ⟨sys.MMAddr &&& 0x3FFFFFF, sys.ARAddr &&& 0x3FFFFFF,
          sys.CntHex % 2 ^ 31, sys.aram64, sys.mram64, sys.hsp, 0⟩
        hk h8k (by omega) (by simp only []; omega) (by simp only []; omega)
    refine ⟨c1, by rw [c2], by rw [c3], by rw [c4]; simp⟩
  unfold aramDmaAux
  by_cases hdir : sys.CntHex.testBit 31 = true <;>
    by_cases hin : sys.ARAddr &&& 0x3FFFFFF < sys.aram_size
  · obtain ⟨c1, c2, c3, c4⟩ := key cA2M hA
    simp only [hdir, hin, if_true, if_pos]
    refine ⟨c4, ?_, c2, c3⟩
    rw [c1]
    omega
  · rcases hwb : sys.wii_mode with _ | _
    · obtain ⟨c1, c2, c3, c4⟩ := key chunkA2Mhsp (chunkAdv_all 0 0).2.2.1
      simp only [hdir, hin, hwb, if_true, if_false, Bool.not_false, if_pos]
      refine ⟨c4, ?_, c2, c3⟩
      rw [c1]
      omega
    · exact absurd (lt_of_le_of_lt harle (hsize hwb)) hin
  · obtain ⟨c1, c2, c3, c4⟩ := key cM2A hM
    simp only [hdir, hin, Bool.false_eq_true, if_false, if_pos]
    refine ⟨c4, ?_, c2, c3⟩
    rw [c1]
    omega
  · rcases hwb : sys.wii_mode with _ | _
    · obtain ⟨c1, c2, c3, c4⟩ := key chunkM2Ahsp (chunkAdv_all 0 0).2.2.2
      simp only [hdir, hin, hwb, Bool.false_eq_true, if_false, Bool.not_false, if_pos]
      refine ⟨c4, ?_, c2, c3⟩
      rw [c1]
      omega
    · exact absurd (lt_of_le_of_lt harle (hsize hwb)) hin

/-- C4: for every ARAM-DMA trigger (write to the count-low register) whose
resulting byte count is `8 * k`, in a configuration reachable from reinit,
exactly `k` eight-byte chunk iterations execute, the count field ends at 0,
and both addresses end at their 64 MiB-masked start plus `8 * k` (the
masking to 64 MiB happening before any transfer). -/
theorem C4_aram_dma_counts (sys : DSPSystem) (val k : Nat)
    (hcfg : aramConfigOK sys)
    (hk : ((sys.CntHex &&& 0xFFFF0000) ||| ((val % 2 ^ 16) &&& 0xFFE0)) % 2 ^ 31
      = 8 * k) :
    (writeARDMACntL_core val sys).2 = k ∧
    (writeARDMACntL val sys).CntHex % 2 ^ 31 = 0 ∧
    (writeARDMACntL val sys).MMAddr = (sys.MMAddr &&& 0x3FFFFFF) + 8 * k ∧
    (writeARDMACntL val sys).ARAddr = (sys.ARAddr &&& 0x3FFFFFF) + 8 * k := by
  set sys2 : DSPSystem :=
    { sys with
      CntHex := (sys.CntHex &&& 0xFFFF0000) ||| ((val % 2 ^ 16) &&& 0xFFE0) }
    with hsys2
  have hk2 : sys2.CntHex % 2 ^ 31 = 8 * k := hk
  have hsize : sys2.wii_mode = true → 0x3FFFFFF < sys2.aram_size := by
    intro hw
    rcases hcfg with ⟨hw2, hs⟩ | ⟨hw2, hs⟩
    · have hss : sys2.aram_size = sys.aram_size := rfl
      rw [hss, hs]
      norm_num [EXRAM_SIZE]
    · have hws : sys2.wii_mode = sys.wii_mode := rfl
      rw [hws, hw2] at hw
      exact absurd hw (by decide)
  obtain ⟨r1, r2, r3, r4⟩ :=
    aramDmaAux_counts _ _
      ((chunkAdv_all sys2.aram_mask (sys2.aram_info &&& 0xF)).2.1)
      ((chunkAdv_all sys2.aram_mask (sys2.aram_info &&& 0xF)).1)
      sys2 k hk2 hsize
  exact ⟨r1, r2, r3, r4⟩

/-- Witness for C4 at a concrete trigger of 32 bytes on the standalone
configuration. -/
theorem C4_aram_dma_counts_witness :
    (aramConfigOK exSys ∧
      ((exSys.CntHex &&& 0xFFFF0000) ||| (((32 : Nat) % 2 ^ 16) &&& 0xFFE0)) % 2 ^ 31
        = 8 * 4) ∧
    ((writeARDMACntL_core 32 exSys).2 = 4 ∧
      (writeARDMACntL 32 exSys).CntHex % 2 ^ 31 = 0 ∧
      (writeARDMACntL 32 exSys).MMAddr = (exSys.MMAddr &&& 0x3FFFFFF) + 8 * 4 ∧
      (writeARDMACntL 32 exSys).ARAddr = (exSys.ARAddr &&& 0x3FFFFFF) + 8 * 4) :=
  ⟨⟨Or.inr ⟨rfl, rfl⟩, by decide⟩,
    C4_aram_dma_counts exSys 32 4 (Or.inr ⟨rfl, rfl⟩) (by decide)⟩

/-- C3 counterexample: with descriptor tag 4 and direction MRAM-to-ARAM,
an 8-byte transfer from a main memory holding 5 everywhere also mirrors
the chunk to aux-RAM address 0x400000, which the collapsed single-path
variant does not, so the final aux-RAM contents differ. -/
theorem C3_collapse_counterexample :
    (Do_ARAM_DMA_single
        { exSys with aram_info := 4, CntHex := 8, mram64 := fun _ => 5 }).aram64
        0x400000
      ≠ (Do_ARAM_DMA
          { exSys with aram_info := 4, CntHex := 8, mram64 := fun _ => 5 }).aram64
          0x400000 := by
  decide

/-- The three ARAM-to-MRAM tag branches are identical, so collapsing them
changes nothing. -/
theorem chunkA2Mbuf_single_eq (mask tag : Nat) :
    chunkA2Mbuf mask tag = chunkA2MbufSingle mask := by
  funext st
  unfold chunkA2Mbuf chunkA2MbufSingle
  split <;> first | rfl | (split <;> rfl)

/-- For any tag other than 4 the MRAM-to-ARAM branch equals the collapsed
default path. -/
theorem chunkM2Abuf_single_eq (mask tag : Nat) (h : tag ≠ 4) :
    chunkM2Abuf mask tag = chunkM2AbufSingle mask := by
  funext st
  unfold chunkM2Abuf chunkM2AbufSingle
  split <;> simp_all

/-- C3 (amended): collapsing the three-way descriptor-tag branch of the
ARAM transfer loop to the single default path is a functional no-op in the
ARAM-to-MRAM direction for every tag, and in the MRAM-to-ARAM direction
for every tag other than 4; for tag 4 in the MRAM-to-ARAM direction the
branch additionally mirrors each chunk to `ar_addr + 0x400000` while
`ar_addr < 0x400000`, so the collapse is not behavior-preserving there. -/
theorem C3_collapse_equiv (sys : DSPSystem)
    (h : sys.aram_info &&& 0xF ≠ 4 ∨ sys.CntHex.testBit 31 = true) :
    Do_ARAM_DMA_single sys = Do_ARAM_DMA sys ∧
    Do_ARAM_DMA_single_core sys = Do_ARAM_DMA_core sys := by
  have hA : chunkA2Mbuf sys.aram_mask (sys.aram_info &&& 0xF)
      = chunkA2MbufSingle sys.aram_mask := chunkA2Mbuf_single_eq _ _
  have hcore : Do_ARAM_DMA_single_core sys = Do_ARAM_DMA_core sys := by
    rcases h with h4 | hdir
    · have hM : chunkM2Abuf sys.aram_mask (sys.aram_info &&& 0xF)
          = chunkM2AbufSingle sys.aram_mask := chunkM2Abuf_single_eq _ _ h4
      unfold Do_ARAM_DMA_single_core Do_ARAM_DMA_core
      rw [hM, hA]
    · unfold Do_ARAM_DMA_single_core Do_ARAM_DMA_core aramDmaAux
      rw [hA]
      simp only [hdir, if_true]
  exact ⟨congrArg Prod.fst hcore, hcore⟩

/-- Witness for C3 at the reinit descriptor value (tag 0). -/
theorem C3_collapse_equiv_witness :
    ((exSys.aram_info &&& 0xF ≠ 4) ∨ exSys.CntHex.testBit 31 = true) ∧
    Do_ARAM_DMA_single exSys = Do_ARAM_DMA exSys :=
  ⟨Or.inl (by decide), (C3_collapse_equiv exSys (Or.inl (by decide))).1⟩

end DSPModel
